import Mathlib

/-!
Shallow embedding of the live meeting transcription subsystem of the
repository (FastAPI backend).  The definitions below are translated from:

  * src/app/db/models/meeting.py        (Meeting, MeetingTranscript, MeetingSummary rows)
  * src/app/services/meeting_service.py (MeetingService and module-level coroutines)
  * src/app/services/transcription_service.py (TranscriptionService)
  * src/app/api/v1/meeting.py           (join / stop / retry-summary handlers)

Persistence is modelled as in-memory lists of rows with autoincrement id
counters; `datetime` values are modelled as integers; external capabilities
(the Whisper speech-to-text call and the LLM chat completion) are modelled as
`Except String String` inputs: `.error e` is a raised exception with message
`e`, `.ok raw` is the returned text.

Modelled from the spec: the ORM declarative base (app/db/base.py) and the DB
session factory (app/db/session.py) are files of this repository that are not
under src/.  The service layer reads and writes `Meeting.last_activity`,
`MeetingSummary.summary_unavailable` and `MeetingSummary.error_message`,
attributes that src/app/db/models/meeting.py does not itself declare as
columns; following the spec's data model ("`last_activity` timestamp",
"`summary_unavailable` flag, optional error message") they are modelled here
as ordinary row attributes offered by the persistence collaborator.
-/

namespace TheAgent

/-- Timestamps (datetime.utcnow()) are modelled as integers. -/
abbrev Time := Int

instance {α β : Type _} [DecidableEq α] [DecidableEq β] : DecidableEq (Except α β) :=
  fun x y =>
    match x, y with
    | .error a, .error b =>
      if h : a = b then .isTrue (h ▸ rfl)
      else .isFalse (fun hh => h (Except.error.inj hh))
    | .ok a, .ok b =>
      if h : a = b then .isTrue (h ▸ rfl)
      else .isFalse (fun hh => h (Except.ok.inj hh))
    | .error _, .ok _ => .isFalse Except.noConfusion
    | .ok _, .error _ => .isFalse Except.noConfusion

/-! ### Python string primitives

Structurally recursive renderings of the Python string operations the source
uses (`str.strip`, `str.lower`, `str.startswith`, `str.split`), so that every
definition evaluates by kernel reduction.  `pyStrip` strips the standard
whitespace characters, as `str.strip()` does. -/

/-- Python `s.strip()`. -/
def pyStrip (s : String) : String :=
  String.mk
    (((s.toList.dropWhile Char.isWhitespace).reverse.dropWhile
        Char.isWhitespace).reverse)

/-- Python `s.lower()`. -/
def pyLower (s : String) : String :=
  String.mk (s.toList.map Char.toLower)

/-- Does the second list start with the first? -/
def listStartsWith : List Char → List Char → Bool
  | [], _ => true
  | _ :: _, [] => false
  | p :: ps, c :: cs => p == c && listStartsWith ps cs

/-- Python `s.startswith(pat)`. -/
def pyStartsWith (pat s : String) : Bool :=
  listStartsWith pat.toList s.toList

/-- Python `s.split(sep)` for a one-character separator. -/
def splitOnChar (sep : Char) : List Char → List (List Char)
  | [] => [[]]
  | c :: cs =>
    if c == sep then [] :: splitOnChar sep cs
    else
      match splitOnChar sep cs with
      | [] => [[c]]
      | h :: t => (c :: h) :: t

/-- Python `s.split('\n')`, as strings. -/
def pySplitLines (s : String) : List String :=
  (splitOnChar '\n' s.toList).map String.mk

/-- Python `s.split('##')`: greedy left-to-right split on the two-character
marker used by `_parse_summary`. -/
def splitOnHashHash : List Char → List (List Char)
  | '#' :: '#' :: rest => [] :: splitOnHashHash rest
  | c :: rest =>
    match splitOnHashHash rest with
    | [] => [[c]]
    | h :: t => (c :: h) :: t
  | [] => [[]]

/-- Row of the `meetings` table (src/app/db/models/meeting.py, class Meeting),
with `last_activity` modelled from the spec (see the file header). -/
structure MeetingRec where
  id : Nat
  user_id : Nat
  calendar_event_id : Option String
  meet_link : String
  title : String
  start_time : Time
  end_time : Option Time
  status : String
  is_manual : Bool
  last_activity : Time
  created_at : Time
  updated_at : Time
deriving Repr, DecidableEq

/-- Row of the `meeting_transcripts` table (class MeetingTranscript). -/
structure TranscriptRec where
  id : Nat
  meeting_id : Nat
  timestamp : Time
  speaker : Option String
  text : String
  is_final : Bool
  sequence_number : Nat
deriving Repr, DecidableEq

/-- Row of the `meeting_summaries` table (class MeetingSummary), with
`summary_unavailable` and `error_message` modelled from the spec (see the
file header). -/
structure MeetingSummaryRec where
  id : Nat
  meeting_id : Nat
  full_transcript : String
  key_points : Option String
  decisions : Option String
  action_items : Option (List String)
  follow_ups : Option String
  created_at : Time
  summary_unavailable : Bool
  error_message : Option String
deriving Repr, DecidableEq

/-- The persistence collaborator: the three tables plus autoincrement
counters for primary keys. -/
structure DB where
  meetings : List MeetingRec
  transcripts : List TranscriptRec
  summaries : List MeetingSummaryRec
  nextMeetingId : Nat
  nextTranscriptId : Nat
  nextSummaryId : Nat
deriving Repr, DecidableEq

/-- `db.query(Meeting).filter(Meeting.id == meeting_id).first()` -/
def findMeeting (db : DB) (mid : Nat) : Option MeetingRec :=
  db.meetings.find? (fun m => m.id == mid)

/-- `db.query(MeetingSummary).filter(MeetingSummary.meeting_id == meeting_id).first()` -/
def summaryFor (db : DB) (mid : Nat) : Option MeetingSummaryRec :=
  db.summaries.find? (fun s => s.meeting_id == mid)

/-- Mutate-and-commit of the (first) meeting row with the given id. -/
def updateMeeting (db : DB) (mid : Nat) (f : MeetingRec → MeetingRec) : DB :=
  { db with meetings := db.meetings.map (fun m => if m.id == mid then f m else m) }

/-- UPDATE of a summary row in place (the ORM object `existing_summary` is
mutated and committed; the row is addressed by its primary key). -/
def replaceSummary (db : DB) (s : MeetingSummaryRec) : DB :=
  { db with summaries := db.summaries.map (fun x => if x.id == s.id then s else x) }

/-- src/app/services/meeting_service.py line 21: grace period in seconds. -/
def GRACE_PERIOD : Int := 90

/-- `MeetingService.create_meeting_session` (meeting_service.py lines 28-51).
The source sets `status="active"` unconditionally ("Start as active
immediately"), for both ad-hoc (`is_manual=True`) and calendar-triggered
(`is_manual=False`) creation. -/
def create_meeting_session (db : DB) (now : Time) (user_id : Nat)
    (meet_url title : String) (calendar_event_id : Option String)
    (is_manual : Bool) : DB × MeetingRec :=
  let meeting : MeetingRec :=
    { id := db.nextMeetingId
      user_id := user_id
      calendar_event_id := calendar_event_id
      meet_link := meet_url
      title := title
      start_time := now
      end_time := none
      status := "active"
      is_manual := is_manual
      last_activity := now
      created_at := now
      updated_at := now }
  ({ db with meetings := db.meetings ++ [meeting],
             nextMeetingId := db.nextMeetingId + 1 }, meeting)

/-- The call `meeting_service.create_meeting_session(user_id=user.id,
meet_url=meet_link, title=..., calendar_event_id=event_id, is_manual=False)`
made by `poll_calendar_for_meetings` (meeting_service.py lines 422-428). -/
def calendar_create_meeting (db : DB) (now : Time) (user_id : Nat)
    (meet_link title event_id : String) : DB × MeetingRec :=
  create_meeting_session db now user_id meet_link title (some event_id) false

/-- `MeetingService.get_meeting` (meeting_service.py lines 53-60). -/
def get_meeting (db : DB) (mid uid : Nat) : Option MeetingRec :=
  db.meetings.find? (fun m => m.id == mid && m.user_id == uid)

/-- `MeetingService.update_meeting_status` (meeting_service.py lines 86-93). -/
def update_meeting_status (db : DB) (now : Time) (mid : Nat) (status : String) : DB :=
  updateMeeting db mid (fun m => { m with status := status, last_activity := now })

/-- `MeetingService.update_last_activity` (meeting_service.py lines 95-100). -/
def update_last_activity (db : DB) (now : Time) (mid : Nat) : DB :=
  updateMeeting db mid (fun m => { m with last_activity := now })

/-- `MeetingService.save_transcript_chunk` (meeting_service.py lines 102-125):
INSERT the chunk, then update the meeting's last activity. -/
def save_transcript_chunk (db : DB) (now : Time) (mid : Nat) (text : String)
    (sequence_number : Nat) (is_final : Bool) (speaker : Option String) :
    DB × TranscriptRec :=
  let t : TranscriptRec :=
    { id := db.nextTranscriptId
      meeting_id := mid
      timestamp := now
      speaker := speaker
      text := text
      is_final := is_final
      sequence_number := sequence_number }
  let db1 : DB :=
    { db with transcripts := db.transcripts ++ [t],
              nextTranscriptId := db.nextTranscriptId + 1 }
  (update_last_activity db1 now mid, t)

/-- Insertion step of the `ORDER BY sequence_number` of the transcript query. -/
def insertBySeq (t : TranscriptRec) : List TranscriptRec → List TranscriptRec
  | [] => [t]
  | u :: us =>
    if t.sequence_number ≤ u.sequence_number then t :: u :: us
    else u :: insertBySeq t us

/-- `ORDER BY sequence_number` of the transcript query. -/
def sortBySeq (l : List TranscriptRec) : List TranscriptRec :=
  l.foldr insertBySeq []

/-- `MeetingService.get_full_transcript` (meeting_service.py lines 127-133):
chunks of the meeting in `sequence_number` order, chunks whose text strips to
empty skipped, joined with newlines. -/
def get_full_transcript (db : DB) (mid : Nat) : String :=
  let ordered := sortBySeq (db.transcripts.filter (fun t => t.meeting_id == mid))
  String.intercalate "\n"
    ((ordered.filter (fun t => pyStrip t.text != "")).map (fun t => t.text))

/-! ### Summary parsing (`MeetingService._parse_summary`) -/

/-- Python `part.split('\n', 1)[1]` guarded by `if '\n' in part`, used by
`_parse_summary` to take the section content after its heading line. -/
def afterFirstNewline (s : String) : String :=
  if s.toList.contains '\n' then
    String.mk ((s.toList.dropWhile (fun c => c != '\n')).drop 1)
  else ""

/-- Python `line.strip('- ')`: remove leading and trailing dashes/spaces. -/
def stripDashSpace (s : String) : String :=
  let p : Char → Bool := fun c => c == '-' || c == ' '
  String.mk (((s.toList.dropWhile p).reverse.dropWhile p).reverse)

/-- The four sections accumulated by `_parse_summary` (its `sections` dict,
with its initial values `''`/`[]`). -/
structure Sections where
  key_points : String
  decisions : String
  action_items : List String
  follow_ups : String
deriving Repr, DecidableEq

/-- One iteration of the `for part in parts` loop of `_parse_summary`
(meeting_service.py lines 264-275). -/
def applyPart (acc : Sections) (part0 : String) : Sections :=
  let part := pyStrip part0
  if pyStartsWith "key points" (pyLower part) then
    { acc with key_points := pyStrip (afterFirstNewline part) }
  else if pyStartsWith "decisions" (pyLower part) then
    { acc with decisions := pyStrip (afterFirstNewline part) }
  else if pyStartsWith "action items" (pyLower part) then
    let content := afterFirstNewline part
    let items := (pySplitLines content).filterMap (fun line =>
      if pyStartsWith "-" (pyStrip line) then some (pyStrip (stripDashSpace line)) else none)
    { acc with action_items := items }
  else if pyStartsWith "follow-ups" (pyLower part) || pyStartsWith "follow ups" (pyLower part) then
    { acc with follow_ups := pyStrip (afterFirstNewline part) }
  else acc

/-- `MeetingService._parse_summary` (meeting_service.py lines 253-279):
split the LLM output on `##` markers and fill recognizable sections;
unrecognizable parts leave the defaults. -/
def parse_summary (summary_text : String) : Sections :=
  ((splitOnHashHash summary_text.toList).map String.mk).foldl applyPart ⟨"", "", [], ""⟩

/-! ### `MeetingService.generate_summary` (meeting_service.py lines 135-218) -/

/-- The message of the `ValueError` raised at meeting_service.py line 141. -/
def shortTranscriptMsg : String := "Transcript is too short or empty for summarization"

/-- The `except` branch of `generate_summary` (meeting_service.py lines
191-218): persist or update a summary row carrying `summary_unavailable=True`,
the error message and the current transcript snapshot, and return it. -/
def summaryFailure (db : DB) (now : Time) (mid : Nat) (msg : String) :
    DB × MeetingSummaryRec :=
  let full := get_full_transcript db mid
  match summaryFor db mid with
  | some ex =>
    let ex1 := { ex with full_transcript := full,
                         summary_unavailable := true,
                         error_message := some msg }
    (replaceSummary db ex1, ex1)
  | none =>
    let s : MeetingSummaryRec :=
      { id := db.nextSummaryId
        meeting_id := mid
        full_transcript := full
        key_points := none
        decisions := none
        action_items := none
        follow_ups := none
        created_at := now
        summary_unavailable := true
        error_message := some msg }
    ({ db with summaries := db.summaries ++ [s],
               nextSummaryId := db.nextSummaryId + 1 }, s)

/-- `MeetingService.generate_summary` (meeting_service.py lines 135-218).
`llm` is the outcome of the chat-completion call made via
`_summarize_with_ai_sync`; `.ok raw` carries the returned content (the source
strips it before parsing).  Control flow of the source: a transcript that is
empty or strips to fewer than 10 characters raises `ValueError`, landing in
the `except` branch; an existing summary with `retry=False` is returned
unchanged before the LLM is called; otherwise the LLM output is parsed and
the summary row is updated in place or inserted; an LLM exception also lands
in the `except` branch.  The function always returns a summary row. -/
def generate_summary (db : DB) (now : Time) (mid : Nat) (retry : Bool)
    (llm : Except String String) : DB × MeetingSummaryRec :=
  let full := get_full_transcript db mid
  if full == "" || (pyStrip full).length < 10 then
    summaryFailure db now mid shortTranscriptMsg
  else
    match summaryFor db mid with
    | some ex =>
      if retry then
        match llm with
        | .error e => summaryFailure db now mid e
        | .ok raw =>
          let parsed := parse_summary (pyStrip raw)
          let ex1 := { ex with full_transcript := full,
                               key_points := some parsed.key_points,
                               decisions := some parsed.decisions,
                               action_items := some parsed.action_items,
                               follow_ups := some parsed.follow_ups,
                               summary_unavailable := false,
                               error_message := none }
          (replaceSummary db ex1, ex1)
      else (db, ex)
    | none =>
      match llm with
      | .error e => summaryFailure db now mid e
      | .ok raw =>
        let parsed := parse_summary (pyStrip raw)
        let s : MeetingSummaryRec :=
          { id := db.nextSummaryId
            meeting_id := mid
            full_transcript := full
            key_points := some parsed.key_points
            decisions := some parsed.decisions
            action_items := some parsed.action_items
            follow_ups := some parsed.follow_ups
            created_at := now
            summary_unavailable := false
            error_message := none }
        ({ db with summaries := db.summaries ++ [s],
                   nextSummaryId := db.nextSummaryId + 1 }, s)

/-! ### TranscriptionService (src/app/services/transcription_service.py) -/

/-- A subscriber WebSocket connection of a session.  `closed` records
whether `ws.close()` has been awaited on it. -/
structure WS where
  id : Nat
  closed : Bool
deriving Repr, DecidableEq

/-- One raw audio chunk (opaque bytes). -/
abbrev AudioChunk := List Nat

/-- In-memory per-meeting session state (TranscriptionService.__init__):
running flag, sequence counter (starting at 0), audio buffer, subscriber
connections.  The Whisper model handle, FFmpeg process and temp file are
process resources with no bearing on the verified state. -/
structure TranscriptionService where
  meeting_id : Nat
  is_running : Bool
  sequence_number : Nat
  audio_buffer : List AudioChunk
  websocket_connections : List WS
deriving Repr, DecidableEq

/-- Payload broadcast to subscribers by `transcribe_buffer`
(transcription_service.py lines 174-180). -/
structure BroadcastMsg where
  meeting_id : Nat
  timestamp : Time
  text : String
  sequence_number : Nat
  is_final : Bool
deriving Repr, DecidableEq

namespace TranscriptionService

/-- `TranscriptionService.stop` (transcription_service.py lines 57-78):
clear the running flag, terminate FFmpeg, unlink the temp file (exceptions
swallowed), and `close()` every subscriber connection (exceptions swallowed,
connections are not removed from the list).  The audio buffer and the
sequence counter are left untouched and no database access occurs. -/
def stop (ts : TranscriptionService) : TranscriptionService :=
  { ts with is_running := false,
            websocket_connections :=
              ts.websocket_connections.map (fun w => { w with closed := true }) }

/-- `TranscriptionService.transcribe_buffer` (transcription_service.py lines
146-188): a transcription pass.  Empty buffer: return at once.  Otherwise run
Whisper (`stt`); on an exception nothing has been mutated and the exception
is re-raised (`.error`).  On success, if the text strips to non-empty,
increment the sequence counter, persist the chunk with `is_final=True` and
broadcast it; in either case clear the buffer. -/
def transcribe_buffer (ts : TranscriptionService) (db : DB) (now : Time)
    (stt : Except String String) :
    Except String (TranscriptionService × DB × List BroadcastMsg) :=
  if ts.audio_buffer.isEmpty then .ok (ts, db, [])
  else
    match stt with
    | .error e => .error e
    | .ok raw =>
      let text := pyStrip raw
      if text != "" then
        let seq := ts.sequence_number + 1
        let (db1, chunk) := save_transcript_chunk db now ts.meeting_id text seq true none
        let msg : BroadcastMsg :=
          { meeting_id := ts.meeting_id
            timestamp := chunk.timestamp
            text := text
            sequence_number := seq
            is_final := true }
        .ok ({ ts with sequence_number := seq, audio_buffer := [] }, db1, [msg])
      else
        .ok ({ ts with audio_buffer := [] }, db, [])

/-- `TranscriptionService.process_audio_chunk` (transcription_service.py
lines 105-119): append the chunk to the buffer; once 10 chunks have
accumulated, trigger an immediate transcription pass.  Every exception is
caught and logged. -/
def process_audio_chunk (ts : TranscriptionService) (db : DB) (now : Time)
    (data : AudioChunk) (stt : Except String String) :
    TranscriptionService × DB × List BroadcastMsg :=
  let ts1 := { ts with audio_buffer := ts.audio_buffer ++ [data] }
  if 10 ≤ ts1.audio_buffer.length then
    match ts1.transcribe_buffer db now stt with
    | .ok r => r
    | .error _ => (ts1, db, [])
  else (ts1, db, [])

/-- `TranscriptionService.transcription_loop` (transcription_service.py lines
121-144), driven by one `(now, stt)` input per iteration of the
`while self.is_running` loop.  A non-empty buffer triggers a pass; a raised
exception increments the consecutive-failure counter (`retry_count`,
`max_retries = 4`) and, at the fourth consecutive failure, clears
`is_running` and breaks out — the meeting's status is not touched.  A
successful pass resets the counter to 0. -/
def transcription_loop (ts : TranscriptionService) (db : DB) (retry : Nat) :
    List (Time × Except String String) →
    TranscriptionService × DB × List BroadcastMsg
  | [] => (ts, db, [])
  | (now, stt) :: rest =>
    if ts.is_running then
      if ts.audio_buffer.isEmpty then transcription_loop ts db retry rest
      else
        match ts.transcribe_buffer db now stt with
        | .ok (ts1, db1, msgs) =>
          let r := transcription_loop ts1 db1 0 rest
          (r.1, r.2.1, msgs ++ r.2.2)
        | .error _ =>
          if retry + 1 ≥ 4 then ({ ts with is_running := false }, db, [])
          else transcription_loop ts db (retry + 1) rest
    else (ts, db, [])

end TranscriptionService

/-- Driver quantifying over the behaviors of a session: before each
transcription pass an arbitrary batch of audio has been appended to the
session's buffer (via `process_audio_chunk` appends); a pass whose Whisper
call raises leaves the session and database unchanged (its caller catches
the exception). -/
def runPasses (ts : TranscriptionService) (db : DB) :
    List (List AudioChunk × Time × Except String String) →
    TranscriptionService × DB × List BroadcastMsg
  | [] => (ts, db, [])
  | (audio, now, stt) :: rest =>
    let ts1 := { ts with audio_buffer := ts.audio_buffer ++ audio }
    match ts1.transcribe_buffer db now stt with
    | .ok (ts2, db2, msgs) =>
      let r := runPasses ts2 db2 rest
      (r.1, r.2.1, msgs ++ r.2.2)
    | .error _ => runPasses ts1 db rest

/-! ### Module-level controller functions and HTTP handlers -/

/-- Process-wide state: the database plus the `active_meetings` registry of
in-memory sessions (meeting_service.py line 18). -/
structure ServerState where
  db : DB
  sessions : List (Nat × TranscriptionService)
deriving Repr, DecidableEq

/-- `stop_meeting_transcription` (meeting_service.py lines 312-345): stop and
deregister the session if present; set the meeting's status to `finalizing`;
run `generate_summary`; set the status to `completed` — the source sets it to
`completed` in the success branch AND in the `except` branch around
`generate_summary`, so unconditionally; finally set `end_time`. -/
def stop_meeting_transcription (st : ServerState) (now : Time) (mid : Nat)
    (llm : Except String String) : ServerState :=
  let sessions1 :=
    (st.sessions.map (fun p => if p.1 == mid then (p.1, p.2.stop) else p)).filter
      (fun p => p.1 != mid)
  let db1 := update_meeting_status st.db now mid "finalizing"
  let db2 := (generate_summary db1 now mid false llm).1
  let db3 := update_meeting_status db2 now mid "completed"
  let db4 := updateMeeting db3 mid (fun m => { m with end_time := some now })
  { db := db4, sessions := sessions1 }

/-- One tick of `check_inactive_sessions` (meeting_service.py lines 348-374):
the ids of the meetings for which `stop_meeting_transcription(meeting.id,
force=True)` is spawned as a fire-and-forget task.  The scan itself mutates
nothing. -/
def check_inactive_tick (db : DB) (now : Time) : List Nat :=
  let cutoff := now - GRACE_PERIOD
  (db.meetings.filter
    (fun m => m.status == "active" && decide (m.last_activity < cutoff))).map
    (fun m => m.id)

/-- Response shape of the `/meetings/join` handler. -/
structure JoinResponse where
  session_id : Nat
  meet_url : String
  websocket_url : String
  status : String
  message : String
deriving Repr, DecidableEq

/-- `join_meeting` (src/app/api/v1/meeting.py lines 42-101).  Returns the new
state, the response, and the list of meeting ids for which
`start_meeting_transcription` was scheduled as a background task. -/
def join_meeting (st : ServerState) (now : Time) (uid : Nat)
    (meet_url : String) (title : Option String) :
    ServerState × JoinResponse × List Nat :=
  let existing := st.db.meetings.find? (fun m =>
    m.user_id == uid && m.meet_link == meet_url &&
      (m.status == "active" || m.status == "finalizing"))
  match existing with
  | some m =>
    (st,
     { session_id := m.id
       meet_url := m.meet_link
       websocket_url := "/ws/meeting/" ++ toString m.id
       status := m.status
       message := "Session already active for this meeting" },
     [])
  | none =>
    let (db1, meeting) :=
      create_meeting_session st.db now uid meet_url
        (title.getD "Untitled Meeting") none true
    ({ st with db := db1 },
     { session_id := meeting.id
       meet_url := meeting.meet_link
       websocket_url := "/ws/meeting/" ++ toString meeting.id
       status := "active"
       message := "Meeting session created. Connect to WebSocket to stream audio." },
     [meeting.id])

/-- An HTTPException raised by a handler. -/
structure ApiError where
  status_code : Nat
  detail : String
deriving Repr, DecidableEq

/-- `retry_summary_generation` (src/app/api/v1/meeting.py lines 233-270):
404 if the meeting is not the user's; 400 unless its status is `completed` or
`finalizing`; 400 if the full transcript is missing or strips to fewer than
10 characters; otherwise run `generate_summary(meeting_id, retry=True)` and
return the summary. -/
def retry_summary_generation (st : ServerState) (now : Time) (mid uid : Nat)
    (llm : Except String String) :
    Except ApiError (ServerState × MeetingSummaryRec) :=
  match get_meeting st.db mid uid with
  | none => .error { status_code := 404, detail := "Meeting not found" }
  | some meeting =>
    if meeting.status != "completed" && meeting.status != "finalizing" then
      .error { status_code := 400,
               detail := "Meeting must be completed or finalizing to retry summary" }
    else
      let full := get_full_transcript st.db mid
      if full == "" || (pyStrip full).length < 10 then
        .error { status_code := 400, detail := shortTranscriptMsg }
      else
        let r := generate_summary st.db now mid true llm
        .ok ({ st with db := r.1 }, r.2)

/-- The sequence numbers of the persisted chunks of a meeting, in insertion
order. -/
def chunkSeqs (db : DB) (mid : Nat) : List Nat :=
  (db.transcripts.filter (fun t => t.meeting_id == mid)).map
    (fun t => t.sequence_number)

/-! ### Helper lemmas -/

theorem summaryFailure_meetings (db : DB) (now : Time) (mid : Nat) (msg : String) :
    (summaryFailure db now mid msg).1.meetings = db.meetings := by
  unfold summaryFailure
  split <;> rfl

theorem generate_summary_meetings (db : DB) (now : Time) (mid : Nat)
    (retry : Bool) (llm : Except String String) :
    (generate_summary db now mid retry llm).1.meetings = db.meetings := by
  unfold generate_summary
  dsimp only
  repeat' split
  all_goals first
    | rfl
    | apply summaryFailure_meetings

theorem find?_map_ite_id (l : List MeetingRec) (mid : Nat)
    (f : MeetingRec → MeetingRec) (hf : ∀ m, (f m).id = m.id) :
    (l.map (fun m => if m.id == mid then f m else m)).find? (fun m => m.id == mid) =
      (l.find? (fun m => m.id == mid)).map f := by
  induction l with
  | nil => rfl
  | cons m rest ih =>
    simp only [List.map_cons, List.find?_cons]
    by_cases h : m.id = mid
    · have h1 : (if m.id == mid then f m else m) = f m := by simp [h]
      rw [h1]
      have h2 : ((f m).id == mid) = true := by simp [hf, h]
      have h3 : (m.id == mid) = true := by simp [h]
      simp [h2, h3]
    · have h1 : (if m.id == mid then f m else m) = m := by simp [h]
      rw [h1]
      have h3 : (m.id == mid) = false := by simp [h]
      simp only [h3, ih]

theorem findMeeting_updateMeeting (db : DB) (mid : Nat)
    (f : MeetingRec → MeetingRec) (hf : ∀ m, (f m).id = m.id) :
    findMeeting (updateMeeting db mid f) mid = (findMeeting db mid).map f :=
  find?_map_ite_id db.meetings mid f hf

theorem findMeeting_update_meeting_status (db : DB) (now : Time) (mid : Nat)
    (s : String) :
    findMeeting (update_meeting_status db now mid s) mid =
      (findMeeting db mid).map (fun m => { m with status := s, last_activity := now }) :=
  findMeeting_updateMeeting db mid _ (fun _ => rfl)

theorem summaryFailure_fresh (db : DB) (now : Time) (mid : Nat) (msg : String)
    (hnone : summaryFor db mid = none) :
    summaryFor (summaryFailure db now mid msg).1 mid =
        some (summaryFailure db now mid msg).2 ∧
    (summaryFailure db now mid msg).2.summary_unavailable = true ∧
    (summaryFailure db now mid msg).2.error_message = some msg := by
  unfold summaryFailure
  rw [hnone]
  dsimp only
  refine ⟨?_, rfl, rfl⟩
  unfold summaryFor at hnone ⊢
  dsimp only
  rw [List.find?_append, hnone]
  simp

theorem find?_replace_first (l : List MeetingSummaryRec) (mid : Nat)
    (ex ex1 : MeetingSummaryRec)
    (hnodup : (l.map (fun s => s.id)).Nodup)
    (hex : l.find? (fun s => s.meeting_id == mid) = some ex)
    (hid : ex1.id = ex.id) (hp : (ex1.meeting_id == mid) = true) :
    (l.map (fun x => if x.id == ex1.id then ex1 else x)).find?
      (fun s => s.meeting_id == mid) = some ex1 := by
  induction l with
  | nil => simp at hex
  | cons a rest ih =>
    rw [List.map_cons] at hnodup
    have hn := List.nodup_cons.mp hnodup
    cases hpa : (a.meeting_id == mid) with
    | true =>
      have ha : a = ex := by
        simp only [List.find?_cons, hpa] at hex
        exact Option.some.inj hex
      have hb : (a.id == ex1.id) = true := by
        subst ha
        simp [hid]
      have hg : (if (a.id == ex1.id) = true then ex1 else a) = ex1 := by
        rw [hb]
        simp
      simp only [List.map_cons, hg, List.find?_cons, hp]
    | false =>
      simp only [List.find?_cons, hpa] at hex
      have hmem : ex ∈ rest := List.mem_of_find?_eq_some hex
      have hne : (a.id == ex1.id) = false := by
        rw [hid]
        by_cases h : a.id = ex.id
        · exact absurd (h ▸ List.mem_map_of_mem (fun s => s.id) hmem) hn.1
        · simp [h]
      have hg : (if (a.id == ex1.id) = true then ex1 else a) = a := by
        rw [hne]
        simp
      simp only [List.map_cons, hg, List.find?_cons, hpa]
      exact ih hn.2 hex

theorem summaryFailure_spec (db : DB) (now : Time) (mid : Nat) (msg : String)
    (hnodup : (db.summaries.map (fun s => s.id)).Nodup) :
    (summaryFailure db now mid msg).2.summary_unavailable = true ∧
    (summaryFailure db now mid msg).2.error_message = some msg ∧
    (summaryFailure db now mid msg).2.full_transcript = get_full_transcript db mid ∧
    summaryFor (summaryFailure db now mid msg).1 mid =
      some (summaryFailure db now mid msg).2 := by
  unfold summaryFailure
  cases hex : summaryFor db mid with
  | none =>
    dsimp only
    refine ⟨rfl, rfl, rfl, ?_⟩
    unfold summaryFor at hex ⊢
    dsimp only
    rw [List.find?_append, hex]
    simp
  | some ex =>
    dsimp only
    refine ⟨rfl, rfl, rfl, ?_⟩
    unfold summaryFor at hex ⊢
    have hp := List.find?_some hex
    exact find?_replace_first db.summaries mid ex _ hnodup hex rfl hp

/-- Bool form of the transcript-length gate when the transcript strips to at
least 10 characters. -/
theorem transcript_ok_cond (db : DB) (mid : Nat)
    (hlong : 10 ≤ (pyStrip (get_full_transcript db mid)).length) :
    ((get_full_transcript db mid == "") ||
      decide ((pyStrip (get_full_transcript db mid)).length < 10)) = false := by
  have hne : (get_full_transcript db mid == "") = false := by
    by_cases hf : get_full_transcript db mid = ""
    · rw [hf] at hlong
      exact absurd hlong (by decide)
    · simp [hf]
  have hlt : (decide ((pyStrip (get_full_transcript db mid)).length < 10)) = false :=
    decide_eq_false (Nat.not_lt.mpr hlong)
  rw [hne, hlt]
  rfl

/-! ### C5 — InactivityMonitor tick selection -/

/-- C5: each tick of `check_inactive_sessions` spawns a forced stop for
exactly the meetings whose status is `active` and whose `last_activity` is
older than `now - GRACE_PERIOD`; a meeting with recent activity (or any
non-active meeting) is not selected, and the scan itself mutates nothing
(the stops are fire-and-forget tasks). -/
theorem inactivity_tick_selects_exactly_stale_active (db : DB) (now : Time) (mid : Nat) :
    mid ∈ check_inactive_tick db now ↔
      ∃ m ∈ db.meetings,
        m.id = mid ∧ m.status = "active" ∧ m.last_activity < now - GRACE_PERIOD := by
  simp only [check_inactive_tick, List.mem_map, List.mem_filter,
    Bool.and_eq_true, beq_iff_eq, decide_eq_true_eq]
  constructor
  · rintro ⟨m, ⟨hm, hs, hl⟩, hid⟩
    exact ⟨m, hm, hid, hs, hl⟩
  · rintro ⟨m, hm, hid, hs, hl⟩
    exact ⟨m, ⟨hm, hs, hl⟩, hid⟩

/-! ### C3 — idempotent join -/

/-- C3: if a meeting for the same `(user, link)` pair already exists in status
`active` or `finalizing`, the join handler returns that meeting's id and
channel address, keeps the state exactly as it was (no second Meeting row, no
session registered) and schedules no background transcription start; if no
such meeting exists, a fresh Meeting (status `active`) is persisted and a
background transcription start is scheduled for it. -/
theorem join_is_idempotent (st : ServerState) (now : Time) (uid : Nat)
    (url : String) (title : Option String) :
    (∀ m,
      st.db.meetings.find? (fun m => m.user_id == uid && m.meet_link == url &&
          (m.status == "active" || m.status == "finalizing")) = some m →
      join_meeting st now uid url title =
        (st,
         { session_id := m.id
           meet_url := m.meet_link
           websocket_url := "/ws/meeting/" ++ toString m.id
           status := m.status
           message := "Session already active for this meeting" },
         [])) ∧
    (st.db.meetings.find? (fun m => m.user_id == uid && m.meet_link == url &&
          (m.status == "active" || m.status == "finalizing")) = none →
      (join_meeting st now uid url title).2.1.session_id = st.db.nextMeetingId ∧
      (join_meeting st now uid url title).2.2 = [st.db.nextMeetingId] ∧
      (join_meeting st now uid url title).1.sessions = st.sessions ∧
      ∃ newm,
        (join_meeting st now uid url title).1.db.meetings =
            st.db.meetings ++ [newm] ∧
        newm.id = st.db.nextMeetingId ∧ newm.status = "active" ∧
        newm.user_id = uid ∧ newm.meet_link = url) := by
  constructor
  · intro m hm
    unfold join_meeting
    rw [hm]
  · intro hm
    unfold join_meeting
    rw [hm]
    exact ⟨rfl, rfl, rfl, _, rfl, rfl, rfl, rfl, rfl⟩

/-- C3 witness: a concrete state in which a meeting for the pair already
exists in status `active`; the join returns its id and changes nothing. -/
theorem join_is_idempotent_witness :
    (let m0 : MeetingRec :=
      ⟨5, 2, none, "https://meet/x", "T", 0, none, "active", true, 0, 0, 0⟩
     let st0 : ServerState := ⟨⟨[m0], [], [], 6, 1, 1⟩, []⟩
     st0.db.meetings.find? (fun m => m.user_id == 2 && m.meet_link == "https://meet/x" &&
        (m.status == "active" || m.status == "finalizing")) = some m0 ∧
     join_meeting st0 7 2 "https://meet/x" none =
       (st0, ⟨5, "https://meet/x", "/ws/meeting/5", "active",
              "Session already active for this meeting"⟩, [])) := by
  refine ⟨by decide, ?_⟩
  exact (join_is_idempotent ⟨⟨[⟨5, 2, none, "https://meet/x", "T", 0, none, "active", true, 0, 0, 0⟩], [], [], 6, 1, 1⟩, []⟩ 7 2 "https://meet/x" none).1
    ⟨5, 2, none, "https://meet/x", "T", 0, none, "active", true, 0, 0, 0⟩ (by decide)

/-! ### C6 — retry-summary gate -/

/-- C6: for a meeting of the user whose status is `completed` or
`finalizing`, the retry-summary handler rejects with the 400
`TranscriptTooShort` error exactly when the concatenated transcript strips to
fewer than 10 characters, and accepts (runs `generate_summary` with
`retry=True` and returns its summary) when it strips to at least 10
characters. -/
theorem retry_summary_gate (st : ServerState) (now : Time) (mid uid : Nat)
    (llm : Except String String) (meeting : MeetingRec)
    (hm : get_meeting st.db mid uid = some meeting)
    (hs : meeting.status = "completed" ∨ meeting.status = "finalizing") :
    ((pyStrip (get_full_transcript st.db mid)).length < 10 →
      retry_summary_generation st now mid uid llm =
        .error { status_code := 400, detail := shortTranscriptMsg }) ∧
    (10 ≤ (pyStrip (get_full_transcript st.db mid)).length →
      retry_summary_generation st now mid uid llm =
        .ok ({ st with db := (generate_summary st.db now mid true llm).1 },
             (generate_summary st.db now mid true llm).2)) := by
  have hgate : (meeting.status != "completed" && meeting.status != "finalizing") = false := by
    rcases hs with h | h <;> simp [h]
  constructor
  · intro hshort
    unfold retry_summary_generation
    rw [hm]
    dsimp only
    rw [hgate]
    have hcond : ((get_full_transcript st.db mid == "") ||
        decide ((pyStrip (get_full_transcript st.db mid)).length < 10)) = true := by
      simp [hshort]
    simp only [Bool.false_eq_true, if_false, hcond, if_true]
  · intro hlong
    unfold retry_summary_generation
    rw [hm]
    dsimp only
    rw [hgate]
    have hne : (get_full_transcript st.db mid == "") = false := by
      by_cases hf : get_full_transcript st.db mid = ""
      · rw [hf] at hlong
        exact absurd hlong (by decide)
      · simp [hf]
    have hlt : (decide ((pyStrip (get_full_transcript st.db mid)).length < 10)) = false :=
      decide_eq_false (Nat.not_lt.mpr hlong)
    simp only [Bool.false_eq_true, if_false, hne, hlt, Bool.or_self]

/-- C6 witness: a concrete completed meeting; with an empty transcript the
handler rejects with the TranscriptTooShort 400, and with a long-enough
transcript it accepts. -/
theorem retry_summary_gate_witness :
    (let m0 : MeetingRec :=
      ⟨1, 2, none, "L", "T", 0, none, "completed", true, 0, 0, 0⟩
     let t0 : TranscriptRec := ⟨1, 1, 0, none, "alpha beta gamma", true, 1⟩
     let stShort : ServerState := ⟨⟨[m0], [], [], 2, 1, 1⟩, []⟩
     let stLong : ServerState := ⟨⟨[m0], [t0], [], 2, 2, 1⟩, []⟩
     get_meeting stShort.db 1 2 = some m0 ∧
     (pyStrip (get_full_transcript stShort.db 1)).length < 10 ∧
     retry_summary_generation stShort 9 1 2 (.error "llm down") =
       .error { status_code := 400, detail := shortTranscriptMsg } ∧
     get_meeting stLong.db 1 2 = some m0 ∧
     10 ≤ (pyStrip (get_full_transcript stLong.db 1)).length ∧
     retry_summary_generation stLong 9 1 2 (.error "llm down") =
       .ok ({ stLong with db := (generate_summary stLong.db 9 1 true (.error "llm down")).1 },
            (generate_summary stLong.db 9 1 true (.error "llm down")).2)) := by
  refine ⟨by decide, by decide, ?_, by decide, by decide, ?_⟩
  · exact (retry_summary_gate ⟨⟨[⟨1, 2, none, "L", "T", 0, none, "completed", true, 0, 0, 0⟩], [], [], 2, 1, 1⟩, []⟩ 9 1 2 (.error "llm down")
      ⟨1, 2, none, "L", "T", 0, none, "completed", true, 0, 0, 0⟩ (by decide) (Or.inl rfl)).1 (by decide)
  · exact (retry_summary_gate ⟨⟨[⟨1, 2, none, "L", "T", 0, none, "completed", true, 0, 0, 0⟩], [⟨1, 1, 0, none, "alpha beta gamma", true, 1⟩], [], 2, 2, 1⟩, []⟩ 9 1 2 (.error "llm down")
      ⟨1, 2, none, "L", "T", 0, none, "completed", true, 0, 0, 0⟩ (by decide) (Or.inl rfl)).2 (by decide)

/-! ### C2 — controller stop reaches a terminal state -/

/-- C2: for any meeting present in the database, the controller-level stop
passes through status `finalizing`, then — whatever the summary generation
outcome (`llm` arbitrary) — sets the status to `completed` and `end_time`;
and when summary generation fails (no summary row yet, and the transcript is
too short or the LLM raises), the failure is recorded on a MeetingSummary row
(`summary_unavailable=True` with an error message) instead of blocking the
transition. -/
theorem stop_reaches_completed (st : ServerState) (now : Time) (mid : Nat)
    (llm : Except String String) (m : MeetingRec)
    (hm : findMeeting st.db mid = some m) :
    (∃ m1, findMeeting (stop_meeting_transcription st now mid llm).db mid = some m1 ∧
       m1.status = "completed" ∧ m1.end_time = some now) ∧
    (∃ m2, findMeeting (update_meeting_status st.db now mid "finalizing") mid = some m2 ∧
       m2.status = "finalizing") ∧
    (summaryFor st.db mid = none →
      ((pyStrip (get_full_transcript st.db mid)).length < 10 ∨ (∃ e, llm = .error e)) →
      ∃ srec,
        summaryFor (stop_meeting_transcription st now mid llm).db mid = some srec ∧
        srec.summary_unavailable = true ∧ srec.error_message.isSome = true) := by
  have h1 : findMeeting (update_meeting_status st.db now mid "finalizing") mid =
      some { m with status := "finalizing", last_activity := now } := by
    rw [findMeeting_update_meeting_status, hm]; rfl
  refine ⟨?_, ⟨_, h1, rfl⟩, ?_⟩
  · -- chase the meeting row through the four database phases of the stop
    unfold stop_meeting_transcription
    dsimp only
    have h2 : findMeeting
        ((generate_summary (update_meeting_status st.db now mid "finalizing") now mid false llm).1)
          mid =
        some { m with status := "finalizing", last_activity := now } := by
      unfold findMeeting
      rw [generate_summary_meetings]
      exact h1
    have h3 : findMeeting
        (update_meeting_status
          ((generate_summary (update_meeting_status st.db now mid "finalizing") now mid false llm).1)
          now mid "completed") mid =
        some { m with status := "completed", last_activity := now } := by
      rw [findMeeting_update_meeting_status, h2]; rfl
    rw [findMeeting_updateMeeting _ mid (fun m => { m with end_time := some now }) (fun _ => rfl), h3]
    exact ⟨_, rfl, rfl, rfl⟩
  · -- the summary-failure branch of generate_summary appends a failure row
    intro hnone hfail
    unfold stop_meeting_transcription
    dsimp only
    have hnone1 : summaryFor (update_meeting_status st.db now mid "finalizing") mid = none := hnone
    have hfull : get_full_transcript (update_meeting_status st.db now mid "finalizing") mid =
        get_full_transcript st.db mid := rfl
    -- generate_summary takes a summaryFailure branch here
    have key : ∃ msg,
        (generate_summary (update_meeting_status st.db now mid "finalizing") now mid false llm) =
          summaryFailure (update_meeting_status st.db now mid "finalizing") now mid msg := by
      unfold generate_summary
      dsimp only
      by_cases hb : ((get_full_transcript (update_meeting_status st.db now mid "finalizing") mid == "") ||
          decide ((pyStrip (get_full_transcript (update_meeting_status st.db now mid "finalizing") mid)).length < 10)) = true
      · exact ⟨shortTranscriptMsg, by rw [if_pos hb]⟩
      · rcases hfail with hshort | ⟨e, he⟩
        · exact absurd (by simp [hfull, hshort]) hb
        · refine ⟨e, ?_⟩
          rw [if_neg hb, hnone1, he]
    rcases key with ⟨msg, hkey⟩
    have hfresh := summaryFailure_fresh
      (update_meeting_status st.db now mid "finalizing") now mid msg hnone1
    refine ⟨(summaryFailure (update_meeting_status st.db now mid "finalizing") now mid msg).2, ?_, hfresh.2.1, by rw [hfresh.2.2]; rfl⟩
    show summaryFor _ mid = _
    rw [hkey]
    exact hfresh.1

/-- C2 witness: a concrete active meeting with no chunks and a failing LLM;
after the stop it is `completed` with `end_time` set, and the failure is
recorded on a summary row. -/
theorem stop_reaches_completed_witness :
    (let m0 : MeetingRec := ⟨1, 2, none, "L", "T", 0, none, "active", true, 0, 0, 0⟩
     let st0 : ServerState := ⟨⟨[m0], [], [], 2, 1, 1⟩, []⟩
     findMeeting st0.db 1 = some m0 ∧
     summaryFor st0.db 1 = none ∧
     (pyStrip (get_full_transcript st0.db 1)).length < 10 ∧
     ((∃ m1, findMeeting (stop_meeting_transcription st0 9 1 (.error "x")).db 1 = some m1 ∧
        m1.status = "completed" ∧ m1.end_time = some 9) ∧
      (∃ m2, findMeeting (update_meeting_status st0.db 9 1 "finalizing") 1 = some m2 ∧
        m2.status = "finalizing") ∧
      (summaryFor st0.db 1 = none →
        ((pyStrip (get_full_transcript st0.db 1)).length < 10 ∨ (∃ e, (Except.error "x" : Except String String) = .error e)) →
        ∃ srec,
          summaryFor (stop_meeting_transcription st0 9 1 (.error "x")).db 1 = some srec ∧
          srec.summary_unavailable = true ∧ srec.error_message.isSome = true))) := by
  refine ⟨by decide, by decide, by decide, ?_⟩
  exact stop_reaches_completed ⟨⟨[⟨1, 2, none, "L", "T", 0, none, "active", true, 0, 0, 0⟩], [], [], 2, 1, 1⟩, []⟩ 9 1 (.error "x")
    ⟨1, 2, none, "L", "T", 0, none, "active", true, 0, 0, 0⟩ (by decide)

/-! ### C7 — session stop -/

/-- C7 counterexample: `TranscriptionService.stop` performs no final flush of
residual buffered audio — after `stop()` the buffered chunk is still sitting
in the buffer (a flush would have drained it), and `stop` has no access to
the database, so no chunk can be persisted by it. -/
theorem stop_does_not_flush_counterexample :
    (TranscriptionService.stop ⟨1, true, 3, [[0, 1]], [⟨1, false⟩]⟩).audio_buffer
        = [[0, 1]] ∧
    ([[0, 1]] : List AudioChunk) ≠ [] := by
  decide

/-- C7 amended: `stop()` clears the running flag (which makes the periodic
loop exit), closes every subscriber connection, and is idempotent — a second
`stop()` is a no-op; however it does NOT flush the residual buffered audio:
the buffer (and the sequence counter) are left exactly as they were, and the
residual audio is simply discarded with the session. -/
theorem stop_amended (ts : TranscriptionService) :
    (ts.stop).is_running = false ∧
    ((ts.stop).websocket_connections.all (fun w => w.closed)) = true ∧
    (ts.stop).audio_buffer = ts.audio_buffer ∧
    (ts.stop).sequence_number = ts.sequence_number ∧
    ts.stop.stop = ts.stop := by
  refine ⟨rfl, ?_, rfl, rfl, ?_⟩
  · simp [TranscriptionService.stop, List.all_map]
  · simp [TranscriptionService.stop, List.map_map]

/-! ### C8 — status of a newly created meeting -/

/-- C8 counterexample: a calendar-triggered creation (`is_manual=False`, as
`poll_calendar_for_meetings` performs it) persists the meeting with status
`active`, not `scheduled`. -/
theorem calendar_created_meeting_not_scheduled :
    (calendar_create_meeting ⟨[], [], [], 1, 1, 1⟩ 0 1 "https://meet" "Standup" "ev1").2.status
        = "active" ∧
    (calendar_create_meeting ⟨[], [], [], 1, 1, 1⟩ 0 1 "https://meet" "Standup" "ev1").2.status
        ≠ "scheduled" := by
  decide

/-- C8 amended: `create_meeting_session` persists every new meeting with
status `active` regardless of `is_manual` — both the ad-hoc join and the
calendar trigger (`is_manual=False`) begin life directly in `active`; no
newly persisted meeting ever has status `scheduled`. -/
theorem created_meeting_always_active (db : DB) (now : Time) (uid : Nat)
    (url title : String) (ceid : Option String) (im : Bool) (eid : String) :
    (create_meeting_session db now uid url title ceid im).2.status = "active" ∧
    (create_meeting_session db now uid url title ceid im).1.meetings =
      db.meetings ++ [(create_meeting_session db now uid url title ceid im).2] ∧
    (calendar_create_meeting db now uid url title eid).2.status = "active" :=
  ⟨rfl, rfl, rfl⟩

/-! ### C1 — strictly increasing sequence numbers -/

theorem chunkSeqs_save (db : DB) (now : Time) (mid : Nat) (text : String)
    (seq : Nat) (fin : Bool) (sp : Option String) :
    chunkSeqs (save_transcript_chunk db now mid text seq fin sp).1 mid =
      chunkSeqs db mid ++ [seq] := by
  unfold chunkSeqs save_transcript_chunk update_last_activity updateMeeting
  dsimp only
  rw [List.filter_append, List.map_append]
  simp

theorem range'_one_concat (n : Nat) :
    List.range' 1 (n + 1) = List.range' 1 n ++ [n + 1] := by
  have h : List.range' 1 (n + 1) = List.range' 1 n ++ [1 + 1 * n] :=
    List.range'_concat 1 n
  rw [h, show 1 + 1 * n = n + 1 from by omega]

/-- Invariant preservation along any run of transcription passes: if the
chunks of the session's meeting carry exactly the sequence numbers
`1, …, sequence_number`, this remains true after any sequence of passes (with
arbitrary audio appended in between), and the session's meeting id never
changes. -/
theorem runPasses_inv (inputs : List (List AudioChunk × Time × Except String String)) :
    ∀ (ts : TranscriptionService) (db : DB),
      chunkSeqs db ts.meeting_id = List.range' 1 ts.sequence_number →
      (runPasses ts db inputs).1.meeting_id = ts.meeting_id ∧
      chunkSeqs (runPasses ts db inputs).2.1 ts.meeting_id =
        List.range' 1 (runPasses ts db inputs).1.sequence_number := by
  induction inputs with
  | nil => exact fun ts db h => ⟨rfl, h⟩
  | cons inp rest ih =>
    intro ts db h
    obtain ⟨audio, now, stt⟩ := inp
    have h1 : chunkSeqs db
        ({ ts with audio_buffer := ts.audio_buffer ++ audio } : TranscriptionService).meeting_id =
        List.range' 1
          ({ ts with audio_buffer := ts.audio_buffer ++ audio } : TranscriptionService).sequence_number := h
    by_cases hbe : ({ ts with audio_buffer := ts.audio_buffer ++ audio } : TranscriptionService).audio_buffer.isEmpty = true
    · have heq : ({ ts with audio_buffer := ts.audio_buffer ++ audio } : TranscriptionService).transcribe_buffer db now stt =
          .ok ({ ts with audio_buffer := ts.audio_buffer ++ audio }, db, []) := by
        unfold TranscriptionService.transcribe_buffer
        rw [if_pos hbe]
      simp only [runPasses, heq]
      exact ih _ db h1
    · cases stt with
      | error e =>
        have heq : ({ ts with audio_buffer := ts.audio_buffer ++ audio } : TranscriptionService).transcribe_buffer db now (.error e) =
            .error e := by
          unfold TranscriptionService.transcribe_buffer
          rw [if_neg hbe]
        simp only [runPasses, heq]
        exact ih _ db h1
      | ok raw =>
        by_cases htext : pyStrip raw = ""
        · have heq : ({ ts with audio_buffer := ts.audio_buffer ++ audio } : TranscriptionService).transcribe_buffer db now (.ok raw) =
              .ok ({ ts with audio_buffer := ([] : List AudioChunk) }, db, []) := by
            unfold TranscriptionService.transcribe_buffer
            rw [if_neg hbe]
            simp [htext]
          simp only [runPasses, heq]
          exact ih _ db h1
        · have heq : ({ ts with audio_buffer := ts.audio_buffer ++ audio } : TranscriptionService).transcribe_buffer db now (.ok raw) =
              .ok ({ ts with sequence_number := ts.sequence_number + 1,
                             audio_buffer := ([] : List AudioChunk) },
                   (save_transcript_chunk db now ts.meeting_id (pyStrip raw)
                     (ts.sequence_number + 1) true none).1,
                   [⟨ts.meeting_id, now, pyStrip raw, ts.sequence_number + 1, true⟩]) := by
            unfold TranscriptionService.transcribe_buffer
            rw [if_neg hbe]
            simp [htext]
            rfl
          simp only [runPasses, heq]
          have h2 : chunkSeqs
              ((save_transcript_chunk db now ts.meeting_id (pyStrip raw)
                  (ts.sequence_number + 1) true none).1)
              ({ ts with sequence_number := ts.sequence_number + 1,
                         audio_buffer := ([] : List AudioChunk) } : TranscriptionService).meeting_id =
              List.range' 1
                ({ ts with sequence_number := ts.sequence_number + 1,
                           audio_buffer := ([] : List AudioChunk) } : TranscriptionService).sequence_number := by
            show chunkSeqs _ ts.meeting_id = List.range' 1 (ts.sequence_number + 1)
            rw [chunkSeqs_save, h, range'_one_concat]
          exact ih _ _ h2

/-- C1: starting from a fresh session (counter 0, no chunks persisted for its
meeting), after any run of transcription passes the persisted chunks of the
meeting carry exactly the sequence numbers `1, …, n` in order — strictly
increasing, no duplicates, starting at 1; and a single pass persists a chunk
(with `is_final=True`) and advances the counter exactly when the buffer is
non-empty and the Whisper result strips to non-empty text: a non-empty
result appends one final chunk with number `previous + 1` and broadcasts it,
an empty result or an empty buffer leaves the database and the counter
untouched, and a Whisper failure re-raises without persisting anything. -/
theorem sequence_numbers_strictly_increasing (ts : TranscriptionService)
    (db : DB) (inputs : List (List AudioChunk × Time × Except String String))
    (h0 : ts.sequence_number = 0)
    (hdb : chunkSeqs db ts.meeting_id = []) :
    (chunkSeqs (runPasses ts db inputs).2.1 ts.meeting_id =
        List.range' 1 (runPasses ts db inputs).1.sequence_number ∧
     (chunkSeqs (runPasses ts db inputs).2.1 ts.meeting_id).Pairwise (· < ·) ∧
     ∀ s ∈ chunkSeqs (runPasses ts db inputs).2.1 ts.meeting_id, 1 ≤ s) ∧
    (∀ (u : TranscriptionService) (d : DB) (t : Time) (raw : String),
      u.audio_buffer ≠ [] → pyStrip raw ≠ "" →
      u.transcribe_buffer d t (.ok raw) =
        .ok ({ u with sequence_number := u.sequence_number + 1,
                      audio_buffer := [] },
             (save_transcript_chunk d t u.meeting_id (pyStrip raw)
               (u.sequence_number + 1) true none).1,
             [⟨u.meeting_id, t, pyStrip raw, u.sequence_number + 1, true⟩])) ∧
    (∀ (u : TranscriptionService) (d : DB) (t : Time) (raw : String),
      pyStrip raw = "" →
      (u.transcribe_buffer d t (.ok raw)).map (fun r => (r.2.1.transcripts, r.1.sequence_number)) =
        .ok (d.transcripts, u.sequence_number)) ∧
    (∀ (u : TranscriptionService) (d : DB) (t : Time) (stt : Except String String),
      u.audio_buffer = [] → u.transcribe_buffer d t stt = .ok (u, d, [])) ∧
    (∀ (u : TranscriptionService) (d : DB) (t : Time) (e : String),
      u.audio_buffer ≠ [] → u.transcribe_buffer d t (.error e) = .error e) := by
  refine ⟨?_, ?_, ?_, ?_, ?_⟩
  · have hinv := runPasses_inv inputs ts db (by rw [hdb, h0]; rfl)
    refine ⟨hinv.2, ?_, ?_⟩
    · rw [hinv.2]
      exact List.pairwise_lt_range' 1 _
    · intro s hs
      rw [hinv.2] at hs
      exact (List.mem_range'_1.mp hs).1
  · intro u d t raw hb ht
    unfold TranscriptionService.transcribe_buffer
    rw [if_neg (by simpa using hb)]
    simp [ht]
    rfl
  · intro u d t raw ht
    unfold TranscriptionService.transcribe_buffer
    by_cases hb : u.audio_buffer.isEmpty = true
    · rw [if_pos hb]
      rfl
    · rw [if_neg hb]
      simp [ht]
      rfl
  · intro u d t stt hb
    unfold TranscriptionService.transcribe_buffer
    rw [if_pos (by simpa using hb)]
  · intro u d t e hb
    unfold TranscriptionService.transcribe_buffer
    rw [if_neg (by simpa using hb)]

/-- C1 witness: a fresh session; two passes with non-empty results yield
chunks numbered 1 and 2, an empty result in between persists nothing. -/
theorem sequence_numbers_witness :
    (let ts0 : TranscriptionService := ⟨1, true, 0, [], []⟩
     let db0 : DB := ⟨[], [], [], 1, 1, 1⟩
     let inputs : List (List AudioChunk × Time × Except String String) :=
       [([[1]], 1, .ok " hello "), ([[2]], 2, .ok "   "), ([[3]], 3, .error "down"),
        ([], 4, .ok "world")]
     (ts0.sequence_number = 0 ∧ chunkSeqs db0 ts0.meeting_id = []) ∧
     (chunkSeqs (runPasses ts0 db0 inputs).2.1 ts0.meeting_id =
        List.range' 1 (runPasses ts0 db0 inputs).1.sequence_number ∧
      (chunkSeqs (runPasses ts0 db0 inputs).2.1 ts0.meeting_id).Pairwise (· < ·) ∧
      ∀ s ∈ chunkSeqs (runPasses ts0 db0 inputs).2.1 ts0.meeting_id, 1 ≤ s)) := by
  refine ⟨⟨by decide, by decide⟩, ?_⟩
  exact (sequence_numbers_strictly_increasing ⟨1, true, 0, [], []⟩ ⟨[], [], [], 1, 1, 1⟩
    [([[1]], 1, .ok " hello "), ([[2]], 2, .ok "   "), ([[3]], 3, .error "down"),
     ([], 4, .ok "world")] (by decide) (by decide)).1

/-! ### C4 — four consecutive transcription failures -/

/-- C4 counterexample: after 4 consecutive Whisper failures the periodic loop
halts (`is_running=False`, remaining inputs are never processed, no
broadcasts) — but the meeting's status is left at `active`; nothing in the
code ever sets it to `failed`. -/
theorem four_failures_do_not_mark_failed_counterexample :
    (let ts0 : TranscriptionService := ⟨1, true, 0, [[0]], [⟨1, false⟩]⟩
     let db0 : DB :=
       ⟨[⟨1, 2, none, "L", "T", 0, none, "active", true, 0, 0, 0⟩], [], [], 2, 1, 1⟩
     let r := TranscriptionService.transcription_loop ts0 db0 0
       [(1, .error "stt down"), (2, .error "stt down"), (3, .error "stt down"),
        (4, .error "stt down"), (5, .ok "a late transcription result")]
     r.1.is_running = false ∧
     r.2.2 = [] ∧
     (findMeeting r.2.1 1).map (fun m => m.status) = some "active" ∧
     (findMeeting r.2.1 1).map (fun m => m.status) ≠ some "failed") := by
  exact ⟨by decide, by decide, by decide, by decide⟩

/-- C4 amended: when the Whisper call raises on 4 consecutive passes of the
periodic loop (buffer non-empty each time), the loop clears `is_running` and
breaks out: the remaining iterations are never executed, no chunk is
persisted, subscribers receive no broadcasts, and the database — in
particular the meeting's status — is left exactly as it was; the status is
never set to `failed`. -/
theorem loop_stops_after_four_failures (ts : TranscriptionService) (db : DB)
    (rest : List (Time × Except String String)) (t1 t2 t3 t4 : Time)
    (e1 e2 e3 e4 : String)
    (hrun : ts.is_running = true) (hbuf : ts.audio_buffer.isEmpty = false) :
    TranscriptionService.transcription_loop ts db 0
      ((t1, .error e1) :: (t2, .error e2) :: (t3, .error e3) :: (t4, .error e4) :: rest) =
    ({ ts with is_running := false }, db, []) := by
  have hstep : ∀ (t : Time) (e : String),
      ts.transcribe_buffer db t (.error e) = .error e := by
    intro t e
    unfold TranscriptionService.transcribe_buffer
    rw [hbuf]
    rfl
  simp [TranscriptionService.transcription_loop, hstep, hrun, hbuf]

/-- C4 witness: concrete four-failure run through the amended theorem. -/
theorem loop_stops_after_four_failures_witness :
    (let ts0 : TranscriptionService := ⟨3, true, 2, [[7], [8]], []⟩
     let db0 : DB :=
       ⟨[⟨3, 1, none, "L2", "T2", 0, none, "active", true, 0, 0, 0⟩], [], [], 4, 1, 1⟩
     (ts0.is_running = true ∧ ts0.audio_buffer.isEmpty = false) ∧
     TranscriptionService.transcription_loop ts0 db0 0
       [(1, .error "w"), (2, .error "x"), (3, .error "y"), (4, .error "z"),
        (5, .ok "text")] =
       ({ ts0 with is_running := false }, db0, [])) := by
  refine ⟨⟨by decide, by decide⟩, ?_⟩
  exact loop_stops_after_four_failures ⟨3, true, 2, [[7], [8]], []⟩
    ⟨[⟨3, 1, none, "L2", "T2", 0, none, "active", true, 0, 0, 0⟩], [], [], 4, 1, 1⟩
    [(5, .ok "text")] 1 2 3 4 "w" "x" "y" "z" (by decide) (by decide)

/-! ### C9 — idempotence of generate_summary for an existing summary -/

/-- C9 counterexample: a meeting that already has a (successful)
MeetingSummary but whose chunk list yields an empty transcript.  Calling
`generate_summary` with `retry=False` does NOT return the existing summary
unchanged: the transcript-length check precedes the existing-summary check,
so the `except` branch overwrites the row in place with
`summary_unavailable=True` before returning it. -/
theorem summary_not_returned_unchanged_counterexample :
    (let s0 : MeetingSummaryRec :=
       ⟨1, 1, "an old long transcript", some "kp", some "d", some [], some "f", 0, false, none⟩
     let db0 : DB :=
       ⟨[⟨1, 2, none, "L", "T", 0, none, "completed", true, 0, 0, 0⟩], [], [s0], 2, 1, 2⟩
     summaryFor db0 1 = some s0 ∧
     (generate_summary db0 5 1 false (.ok "ignored")).2 ≠ s0 ∧
     (generate_summary db0 5 1 false (.ok "ignored")).2.summary_unavailable = true) := by
  exact ⟨by decide, by decide, by decide⟩

/-- C9 amended: provided the concatenated transcript still strips to at
least 10 characters (the transcript-length check precedes the
existing-summary check), a `retry=False` call on a meeting with an existing
summary returns exactly `(db, ex)` — the database untouched, the existing row
unchanged, and the result independent of the LLM input, so no completion call
is made; and a `retry=True` call overwrites the existing row in place: the
number of summary rows is unchanged, the returned row is the persisted one,
and it keeps the existing row's primary key (no second row). -/
theorem summary_idempotent_amended (db : DB) (now : Time) (mid : Nat)
    (llm : Except String String) (ex : MeetingSummaryRec)
    (hnodup : (db.summaries.map (fun s => s.id)).Nodup)
    (hex : summaryFor db mid = some ex)
    (hlong : 10 ≤ (pyStrip (get_full_transcript db mid)).length) :
    generate_summary db now mid false llm = (db, ex) ∧
    ((generate_summary db now mid true llm).1.summaries.length =
        db.summaries.length ∧
     summaryFor (generate_summary db now mid true llm).1 mid =
        some (generate_summary db now mid true llm).2 ∧
     (generate_summary db now mid true llm).2.id = ex.id) := by
  have hcond := transcript_ok_cond db mid hlong
  have hp := List.find?_some (show db.summaries.find? (fun s => s.meeting_id == mid) = some ex from hex)
  constructor
  · unfold generate_summary
    dsimp only
    rw [hcond]
    simp only [Bool.false_eq_true, if_false]
    rw [hex]
  · unfold generate_summary
    dsimp only
    rw [hcond]
    simp only [Bool.false_eq_true, if_false]
    rw [hex]
    dsimp only
    rw [if_pos trivial]
    cases llm with
    | error e =>
      unfold summaryFailure
      rw [hex]
      dsimp only
      refine ⟨by simp [replaceSummary], ?_, rfl⟩
      show (db.summaries.map _).find? _ = _
      exact find?_replace_first db.summaries mid ex _ hnodup hex rfl hp
    | ok raw =>
      dsimp only
      refine ⟨by simp [replaceSummary], ?_, rfl⟩
      show (db.summaries.map _).find? _ = _
      exact find?_replace_first db.summaries mid ex _ hnodup hex rfl hp

/-- C9 witness: concrete database with an existing summary and a long-enough
transcript; `retry=False` returns it unchanged and `retry=True` overwrites in
place. -/
theorem summary_idempotent_amended_witness :
    (let s0 : MeetingSummaryRec :=
       ⟨1, 1, "alpha beta gamma", some "kp", some "d", some [], some "f", 0, false, none⟩
     let db0 : DB :=
       ⟨[⟨1, 2, none, "L", "T", 0, none, "completed", true, 0, 0, 0⟩],
        [⟨1, 1, 0, none, "alpha beta gamma", true, 1⟩], [s0], 2, 2, 2⟩
     ((db0.summaries.map (fun s => s.id)).Nodup ∧
      summaryFor db0 1 = some s0 ∧
      10 ≤ (pyStrip (get_full_transcript db0 1)).length) ∧
     (generate_summary db0 5 1 false (.error "llm down") = (db0, s0) ∧
      ((generate_summary db0 5 1 true (.error "llm down")).1.summaries.length =
          db0.summaries.length ∧
       summaryFor (generate_summary db0 5 1 true (.error "llm down")).1 1 =
          some (generate_summary db0 5 1 true (.error "llm down")).2 ∧
       (generate_summary db0 5 1 true (.error "llm down")).2.id = s0.id))) := by
  refine ⟨⟨by decide, by decide, by decide⟩, ?_⟩
  exact summary_idempotent_amended
    ⟨[⟨1, 2, none, "L", "T", 0, none, "completed", true, 0, 0, 0⟩],
     [⟨1, 1, 0, none, "alpha beta gamma", true, 1⟩],
     [⟨1, 1, "alpha beta gamma", some "kp", some "d", some [], some "f", 0, false, none⟩], 2, 2, 2⟩
    5 1 (.error "llm down")
    ⟨1, 1, "alpha beta gamma", some "kp", some "d", some [], some "f", 0, false, none⟩
    (by decide) (by decide) (by decide)

/-! ### C10 — generate_summary never raises; failures are recorded -/

/-- C10: `generate_summary` always returns a MeetingSummary row (it is a
total function of the database and the LLM outcome — every internal failure
is caught by its `except` branch), and on any failure path — a transcript
that strips to fewer than 10 characters, or an LLM exception on a path that
actually calls the LLM (no existing summary, or `retry=True`) — the returned
row is persisted and carries `summary_unavailable=True`, an error message,
and the current transcript snapshot. -/
theorem generate_summary_never_raises (db : DB) (now : Time) (mid : Nat)
    (retry : Bool) (llm : Except String String)
    (hnodup : (db.summaries.map (fun s => s.id)).Nodup)
    (hfail : (pyStrip (get_full_transcript db mid)).length < 10 ∨
             (10 ≤ (pyStrip (get_full_transcript db mid)).length ∧
              (summaryFor db mid = none ∨ retry = true) ∧ ∃ e, llm = .error e)) :
    (generate_summary db now mid retry llm).2.summary_unavailable = true ∧
    (∃ msg, (generate_summary db now mid retry llm).2.error_message = some msg) ∧
    (generate_summary db now mid retry llm).2.full_transcript =
        get_full_transcript db mid ∧
    summaryFor (generate_summary db now mid retry llm).1 mid =
      some (generate_summary db now mid retry llm).2 := by
  have key : ∃ msg,
      generate_summary db now mid retry llm = summaryFailure db now mid msg := by
    unfold generate_summary
    dsimp only
    rcases hfail with hshort | ⟨hlong, hcase, e, he⟩
    · have hcond : ((get_full_transcript db mid == "") ||
          decide ((pyStrip (get_full_transcript db mid)).length < 10)) = true := by
        simp [hshort]
      exact ⟨shortTranscriptMsg, by rw [if_pos hcond]⟩
    · have hcond := transcript_ok_cond db mid hlong
      refine ⟨e, ?_⟩
      rw [hcond]
      simp only [Bool.false_eq_true, if_false]
      subst he
      rcases hcase with hnone | hretry
      · rw [hnone]
      · cases hsf : summaryFor db mid with
        | none => rfl
        | some ex =>
          subst hretry
          rfl
  rcases key with ⟨msg, hkey⟩
  rw [hkey]
  have hs := summaryFailure_spec db now mid msg hnodup
  exact ⟨hs.1, ⟨msg, hs.2.1⟩, hs.2.2.1, hs.2.2.2⟩

/-- C10 witness: a meeting with no chunks (empty transcript, the short case);
`generate_summary` returns a persisted failure summary. -/
theorem generate_summary_never_raises_witness :
    (let db0 : DB :=
       ⟨[⟨1, 2, none, "L", "T", 0, none, "completed", true, 0, 0, 0⟩], [], [], 2, 1, 1⟩
     ((db0.summaries.map (fun s => s.id)).Nodup ∧
      ((pyStrip (get_full_transcript db0 1)).length < 10 ∨
       (10 ≤ (pyStrip (get_full_transcript db0 1)).length ∧
        (summaryFor db0 1 = none ∨ false = true) ∧
        ∃ e, (Except.ok "sum" : Except String String) = .error e))) ∧
     ((generate_summary db0 7 1 false (.ok "sum")).2.summary_unavailable = true ∧
      (∃ msg, (generate_summary db0 7 1 false (.ok "sum")).2.error_message = some msg) ∧
      (generate_summary db0 7 1 false (.ok "sum")).2.full_transcript =
          get_full_transcript db0 1 ∧
      summaryFor (generate_summary db0 7 1 false (.ok "sum")).1 1 =
        some (generate_summary db0 7 1 false (.ok "sum")).2)) := by
  refine ⟨⟨by decide, Or.inl (by decide)⟩, ?_⟩
  exact generate_summary_never_raises
    ⟨[⟨1, 2, none, "L", "T", 0, none, "completed", true, 0, 0, 0⟩], [], [], 2, 1, 1⟩
    7 1 false (.ok "sum") (by decide) (Or.inl (by decide))

end TheAgent
